import Mathlib

/-!
Verification of the pynotificator / pynotify notification library.

The embedding models the Python value universe that the library's
type-checked attributes range over (strings, ints, bools, None), the
`isinstance` semantics used by `BaseNotification.set_typed_variable`
(in Python, `bool` is a subclass of `int`, so `isinstance(True, int)`
holds), Python truthiness, and the observable effects of `notify()`
(external process invocations, sleeps, HTTP POSTs) as traces.

Stateful classes become state structures; `__init__` and setters become
functions returning `Except NotificationError State`; each `notify`
returns the list of effects it performs (wrapped in `Except` where the
source can dispatch).  Constructors only set attributes in the source,
so their embeddings produce no effects.
-/

/-- Runtime types occurring in the library: `str`, `int`, `bool`, `NoneType`. -/
inductive PyType where
  | str
  | int
  | bool
  | noneType
deriving DecidableEq, Repr

/-- The Python values the library's attributes range over. -/
inductive PyVal where
  | str (s : String)
  | int (n : Int)
  | bool (b : Bool)
  | none
deriving DecidableEq, Repr

/-- `value.__class__`: the exact runtime type of a value. -/
def typeof : PyVal → PyType
  | .str _ => .str
  | .int _ => .int
  | .bool _ => .bool
  | .none => .noneType

/-- `type.__name__` as used in the error message of `set_typed_variable`. -/
def typeName : PyType → String
  | .str => "str"
  | .int => "int"
  | .bool => "bool"
  | .noneType => "NoneType"

/-- Python `isinstance(value, t)` for the types in play.  `bool` is a
subclass of `int` in Python, so a `bool` value is an instance of `int`. -/
def isinstance (v : PyVal) (t : PyType) : Bool :=
  match v, t with
  | .str _, .str => true
  | .int _, .int => true
  | .bool _, .int => true
  | .bool _, .bool => true
  | .none, .noneType => true
  | _, _ => false

/-- Python truthiness (`if value:`): `None` is falsy, the empty string
is falsy, `0` is falsy, `False` is falsy; everything else in our
universe is truthy. -/
def truthy : PyVal → Bool
  | .str s => s ≠ ""
  | .int n => n ≠ 0
  | .bool b => b
  | .none => false

/-- Python `str(value)` / f-string interpolation of a value. -/
def pyStr : PyVal → String
  | .str s => s
  | .int n => toString n
  | .bool b => if b then "True" else "False"
  | .none => "None"

/-- Python `int(value)` as consumed by `range(...)`; only `int` and `bool`
values reach it in the library (the `times` attribute is `isinstance`-checked
against `int`). -/
def pyInt : PyVal → Int
  | .int n => n
  | .bool b => if b then 1 else 0
  | _ => 0

/-- The single error class `NotificationError`, carrying its message. -/
structure NotificationError where
  msg : String
deriving DecidableEq, Repr

/-- The `NotificationError` raised by `set_typed_variable` on a type
mismatch: `can only set` followed by the declared type name and, in
parentheses, the actual class name of the value. -/
def typeError (specified : PyType) (actual : PyType) : NotificationError :=
  ⟨"can only set " ++ typeName specified ++ " (not \"" ++ typeName actual ++ "\")"⟩

/-- `BaseNotification.set_typed_variable(value, specified_type)`: returns the
value unchanged when `isinstance(value, specified_type)`, otherwise raises
`NotificationError`. -/
def set_typed_variable (value : PyVal) (specified_type : PyType) :
    Except NotificationError PyVal :=
  if isinstance value specified_type then
    .ok value
  else
    .error (typeError specified_type (typeof value))

/-- The JSON object produced by `json.dumps` of a payload dict: the
library only ever serializes flat string-keyed dicts, so the body is
modelled as the dict's key/value pairs. -/
structure JsonBody where
  fields : List (String × PyVal)
deriving DecidableEq, Repr

/-- Observable effects of a `notify()` call:
* `run cmd` — `subprocess.run(cmd)`;
* `sleep q` — `time.sleep(q)` in seconds;
* `post url headers params data` — `requests.post(url, headers=..., params=..., data=json.dumps(data))`,
  with `headers`/`params` empty when not passed and `data = Option.none` when not passed;
* `toast title message iconPath duration` — `win10toast.ToastNotifier.show_toast(...)`. -/
inductive Effect where
  | run (cmd : List String)
  | sleep (seconds : ℚ)
  | post (url : String) (headers : List (String × String))
      (params : List (String × String)) (data : Option JsonBody)
  | toast (title : Option String) (message : String) (iconPath : PyVal) (duration : Int)
deriving DecidableEq, Repr

/-- `OSSpecificNotification.notify(self)`: dispatch on `self.system`.
Each hook argument is the effect trace of the corresponding
`darwin_notify` / `linux_notify` / `windows_notify` override.
NOTE (faithful to source): the `else` branch only *constructs* the
`NotificationError` saying the system is not supported — it does not
raise it — so dispatch on an unknown system returns normally with no
effects. -/
def osDispatch (system : String)
    (darwinHook linuxHook windowsHook : List Effect) :
    Except NotificationError (List Effect) :=
  if system = "Darwin" then
    .ok darwinHook
  else if system = "Linux" then
    .ok linuxHook
  else if system = "Windows" then
    .ok windowsHook
  else
    -- the source builds the not-supported-system error here and
    -- discards it: nothing is raised and no hook runs
    let _discarded := NotificationError.mk (system ++ " is not supported system")
    .ok []

/-! ## MessageNotification / WebhookNotification / TokenNotification -/

/-- State of `MessageNotification` (`_message` attribute). -/
structure MessageState where
  _message : PyVal
deriving DecidableEq, Repr

namespace MessageNotification

/-- `MessageNotification.__init__(message)`: `_message = None` then
`set_message(message)`, which type-checks against `str`. -/
def init (message : PyVal) : Except NotificationError MessageState := do
  let m ← set_typed_variable message .str
  pure ⟨m⟩

end MessageNotification

/-- State of `WebhookNotification` (`_message`, `_url`). -/
structure WebhookState where
  _message : PyVal
  _url : PyVal
deriving DecidableEq, Repr

namespace WebhookNotification

/-- `WebhookNotification.__init__(message, url)`: validates `message` (via
the superclass constructor) then `url`, both against `str`. -/
def init (message url : PyVal) : Except NotificationError WebhookState := do
  let m ← MessageNotification.init message
  let u ← set_typed_variable url .str
  pure ⟨m._message, u⟩

end WebhookNotification

/-- State of `TokenNotification` (`_message`, `_token`). -/
structure TokenState where
  _message : PyVal
  _token : PyVal
deriving DecidableEq, Repr

namespace TokenNotification

/-- `TokenNotification.__init__(message, token)`: validates `message` then
`token`, both against `str`. -/
def init (message token : PyVal) : Except NotificationError TokenState := do
  let m ← MessageNotification.init message
  let t ← set_typed_variable token .str
  pure ⟨m._message, t⟩

end TokenNotification

/-! ## BeepNotification -/

/-- State of `BeepNotification`: the captured `system` and `_times`. -/
structure BeepState where
  system : String
  _times : PyVal
deriving DecidableEq, Repr

namespace BeepNotification

/-- `BeepNotification.__init__(times)`: `super().__init__()` captures the
system, then `set_times(times)` type-checks against `int`.  The host
system value is passed in explicitly (the source reads `platform.system()`). -/
def init (system : String) (times : PyVal) : Except NotificationError BeepState := do
  let t ← set_typed_variable times .int
  pure ⟨system, t⟩

/-- `darwin_notify`: one `subprocess.run` of `osascript -e` with the
script `beep` followed by the times value. -/
def darwin_notify (st : BeepState) : List Effect :=
  [.run ["osascript", "-e", "beep " ++ pyStr st._times]]

/-- `linux_notify`: for each unit of `times`, one `subprocess.run` of
`xkbbell` followed by `time.sleep(0.5)`. -/
def linux_notify (st : BeepState) : List Effect :=
  List.flatten (List.replicate (pyInt st._times).toNat
    [Effect.run ["xkbbell"], Effect.sleep (1/2)])

/-- `windows_notify`: for each unit of `times`, one `subprocess.run` of
`rundll32 user32.dll,MessageBeep` followed by `time.sleep(0.5)`. -/
def windows_notify (st : BeepState) : List Effect :=
  List.flatten (List.replicate (pyInt st._times).toNat
    [Effect.run ["rundll32", "user32.dll,MessageBeep"], Effect.sleep (1/2)])

/-- Inherited `OSSpecificNotification.notify`, with this class's hooks. -/
def notify (st : BeepState) : Except NotificationError (List Effect) :=
  osDispatch st.system (darwin_notify st) (linux_notify st) (windows_notify st)

end BeepNotification

/-! ## CenterNotification (pynotificator variant) -/

/-- State of `CenterNotification`: `_message`, captured `system`, and the
optional `_title`, `_subtitle`, `_icon`, `_sound` attributes (each
initialised to Python `None`). -/
structure CenterState where
  _message : PyVal
  system : String
  _title : PyVal
  _subtitle : PyVal
  _icon : PyVal
  _sound : PyVal
deriving DecidableEq, Repr

namespace CenterNotification

/-- `set_title(title)`: `_title = set_typed_variable(title, str)`. -/
def set_title (st : CenterState) (title : PyVal) :
    Except NotificationError CenterState := do
  let t ← set_typed_variable title .str
  pure { st with _title := t }

/-- `set_subtitle(subtitle)`: `_subtitle = set_typed_variable(subtitle, str)`. -/
def set_subtitle (st : CenterState) (subtitle : PyVal) :
    Except NotificationError CenterState := do
  let s ← set_typed_variable subtitle .str
  pure { st with _subtitle := s }

/-- `set_icon(icon)`: `_icon = set_typed_variable(icon, str)`. -/
def set_icon (st : CenterState) (icon : PyVal) :
    Except NotificationError CenterState := do
  let i ← set_typed_variable icon .str
  pure { st with _icon := i }

/-- `set_sound(sound)`: `_sound = set_typed_variable(sound, bool)`. -/
def set_sound (st : CenterState) (sound : PyVal) :
    Except NotificationError CenterState := do
  let s ← set_typed_variable sound .bool
  pure { st with _sound := s }

/-- `CenterNotification.__init__(message, title=None, subtitle=None,
icon=None, sound=True)`: validates `message`, captures the system, sets
the four optional fields to `None`, then conditionally — `if title:`,
`if subtitle:`, `if icon:`, `if sound:` (Python truthiness) — runs the
corresponding validating setter. -/
def init (system : String) (message : PyVal)
    (title subtitle icon sound : PyVal) :
    Except NotificationError CenterState := do
  let m ← MessageNotification.init message
  let st0 : CenterState :=
    ⟨m._message, system, .none, .none, .none, .none⟩
  let st1 ← if truthy title then set_title st0 title else pure st0
  let st2 ← if truthy subtitle then set_subtitle st1 subtitle else pure st1
  let st3 ← if truthy icon then set_icon st2 icon else pure st2
  let st4 ← if truthy sound then set_sound st3 sound else pure st3
  pure st4

/-- The `_title` string computed inside `linux_notify` (and identically in
`windows_notify` up to the final fallback): `title - subtitle` when both
are truthy, the truthy one when only one is, a single space otherwise. -/
def linuxTitle (st : CenterState) : String :=
  if truthy st._title && truthy st._subtitle then
    pyStr st._title ++ " - " ++ pyStr st._subtitle
  else if truthy st._title then
    pyStr st._title
  else if truthy st._subtitle then
    pyStr st._subtitle
  else
    " "

/-- `linux_notify`: `notify-send` with the composed title and the message,
plus the icon flag and path when `_icon` is truthy. -/
def linux_notify (st : CenterState) : List Effect :=
  let cmd := ["notify-send", linuxTitle st, pyStr st._message]
  let cmd := if truthy st._icon then cmd ++ ["-i", pyStr st._icon] else cmd
  [.run cmd]

/-- `darwin_notify`: builds the AppleScript
`display notification "..." [with title "..." ][subtitle "..."] [sound name ""]`
and runs it through `osascript`. -/
def darwin_notify (st : CenterState) : List Effect :=
  let _message := "display notification \"" ++ pyStr st._message ++ "\""
  let _title :=
    (if truthy st._title then "with title \"" ++ pyStr st._title ++ "\" " else "")
    ++ (if truthy st._subtitle then "subtitle \"" ++ pyStr st._subtitle ++ "\"" else "")
  let _sound := if truthy st._sound then "sound name \"\"" else ""
  [.run ["osascript", "-e", _message ++ " " ++ _title ++ " " ++ _sound]]

/-- The title passed to `show_toast` in `windows_notify`: as on Linux but
with `None` (absent) as the final fallback. -/
def windowsTitle (st : CenterState) : Option String :=
  if truthy st._title && truthy st._subtitle then
    some (pyStr st._title ++ " - " ++ pyStr st._subtitle)
  else if truthy st._title then
    some (pyStr st._title)
  else if truthy st._subtitle then
    some (pyStr st._subtitle)
  else
    Option.none

/-- `windows_notify`: `ToastNotifier().show_toast(title, message, icon_path=icon, duration=5)`. -/
def windows_notify (st : CenterState) : List Effect :=
  [.toast (windowsTitle st) (pyStr st._message) st._icon 5]

/-- Inherited `OSSpecificNotification.notify`, with this class's hooks. -/
def notify (st : CenterState) : Except NotificationError (List Effect) :=
  osDispatch st.system (darwin_notify st) (linux_notify st) (windows_notify st)

end CenterNotification

/-! ## Slack / Discord / LINE backends -/

namespace SlackNotification

/-- `SlackNotification.notify`:
posts the JSON-serialized dict with single key `text` to the stored
url — one POST, no headers, no params. -/
def notify (st : WebhookState) : List Effect :=
  [.post (pyStr st._url) [] [] (some ⟨[("text", st._message)]⟩)]

end SlackNotification

namespace DiscordNotification

/-- `DiscordNotification.notify`: one POST to `self._url` with headers
`Content-Type: application/json` and JSON body with the single key `content`. -/
def notify (st : WebhookState) : List Effect :=
  [.post (pyStr st._url) [("Content-Type", "application/json")] []
    (some ⟨[("content", st._message)]⟩)]

end DiscordNotification

/-- State of `LineNotification`: the token-notification fields plus the
`URL` attribute assigned in `__init__`. -/
structure LineState where
  _message : PyVal
  _token : PyVal
  URL : String
deriving DecidableEq, Repr

namespace LineNotification

/-- The fixed LINE Notify endpoint assigned by `LineNotification.__init__`. -/
def lineEndpoint : String := "https://notify-api.line.me/api/notify"

/-- `LineNotification.__init__(message, token)`: the superclass
constructor, then `self.URL` is assigned the fixed LINE Notify endpoint. -/
def init (message token : PyVal) : Except NotificationError LineState := do
  let t ← TokenNotification.init message token
  pure ⟨t._message, t._token, lineEndpoint⟩

/-- `LineNotification.notify`: one POST to `self.URL` with an
`Authorization: Bearer <token>` header and the message as a query param. -/
def notify (st : LineState) : List Effect :=
  [.post st.URL [("Authorization", "Bearer " ++ pyStr st._token)]
    [("message", pyStr st._message)] Option.none]

end LineNotification

/-! ## pynotify variant of `CenterNotification`

The `pynotify` translation of the module differs in `CenterNotification`:
it extends only `MessageNotification` (no OS dispatch, `notify` always
runs the `osascript` command) and its `set_title` / `set_subtitle`
auto-blank the missing counterpart to a single space. -/

/-- State of `pynotify.CenterNotification`: `_message`, `_title`,
`_subtitle`, `_sound` (no icon, no captured system). -/
structure PnCenterState where
  _message : PyVal
  _title : PyVal
  _subtitle : PyVal
  _sound : PyVal
deriving DecidableEq, Repr

namespace Pynotify

/-- `pynotify.CenterNotification.set_title(title)`: validates against
`str`, then — because the underlying command needs both positional
arguments — blanks `_subtitle` to a single space when it is falsy. -/
def set_title (st : PnCenterState) (title : PyVal) :
    Except NotificationError PnCenterState := do
  let t ← set_typed_variable title .str
  let sub := if truthy st._subtitle then st._subtitle else PyVal.str " "
  pure { st with _title := t, _subtitle := sub }

/-- `pynotify.CenterNotification.set_subtitle(subtitle)`: validates
against `str`, then blanks `_title` to a single space when it is falsy. -/
def set_subtitle (st : PnCenterState) (subtitle : PyVal) :
    Except NotificationError PnCenterState := do
  let s ← set_typed_variable subtitle .str
  let ttl := if truthy st._title then st._title else PyVal.str " "
  pure { st with _subtitle := s, _title := ttl }

/-- `pynotify.CenterNotification.set_sound(sound)`. -/
def set_sound (st : PnCenterState) (sound : PyVal) :
    Except NotificationError PnCenterState := do
  let s ← set_typed_variable sound .bool
  pure { st with _sound := s }

/-- `pynotify.CenterNotification.__init__(message, title=None,
subtitle=None, sound=True)`: validates `message`, sets the optional
fields to `None`, then conditionally runs the setters on truthy args. -/
def init (message : PyVal) (title subtitle sound : PyVal) :
    Except NotificationError PnCenterState := do
  let m ← MessageNotification.init message
  let st0 : PnCenterState := ⟨m._message, .none, .none, .none⟩
  let st1 ← if truthy title then set_title st0 title else pure st0
  let st2 ← if truthy subtitle then set_subtitle st1 subtitle else pure st1
  let st3 ← if truthy sound then set_sound st2 sound else pure st2
  pure st3

end Pynotify

/-! ## Theorems -/

/-- C1: the claim says `notify()` on an unsupported OS raises/propagates
the error. The code contradicts its own docstring (`Raises:
NotificationError`): the `else` branch of `OSSpecificNotification.notify`
constructs `NotificationError` and discards it, so `notify()` on an
unknown system value (here `"Java"`) returns normally, raising nothing and
performing no process/HTTP effect. -/
theorem C1_unsupported_os_silently_ignored :
    ∀ darwinHook linuxHook windowsHook : List Effect,
      osDispatch "Java" darwinHook linuxHook windowsHook = Except.ok []
      ∧ BeepNotification.notify ⟨"Java", PyVal.int 3⟩ = Except.ok [] :=
  fun _ _ _ => ⟨rfl, rfl⟩

/-- C2 counterexample: `set_typed_variable(True, int)` is accepted even
though the runtime type of `True` is `bool`, not `int` — the check is
Python `isinstance`, a subtype check (`bool` is a subclass of `int`),
not exact runtime-type equality. -/
theorem C2_counterexample_bool_accepted_as_int :
    set_typed_variable (PyVal.bool true) PyType.int
      = Except.ok (PyVal.bool true)
    ∧ typeof (PyVal.bool true) ≠ PyType.int := by
  constructor
  · rfl
  · decide

/-- C2 amended: the check accepts a value exactly when it is an
`isinstance` of the declared type, i.e. when the runtime type equals the
declared type or the value is a `bool` and `int` is declared (Python
`bool` is a subclass of `int`); every other pair is rejected with the
typed error carrying the declared and actual type names.  In particular
an `int` where `bool` is declared is still rejected (no truthiness-based
acceptance), but a `bool` where `int` is declared is accepted. -/
theorem C2_amended_isinstance_check (v : PyVal) (t : PyType) :
    (set_typed_variable v t = Except.ok v ↔
      (typeof v = t ∨ (typeof v = PyType.bool ∧ t = PyType.int)))
    ∧ (¬(typeof v = t ∨ (typeof v = PyType.bool ∧ t = PyType.int)) →
      set_typed_variable v t = Except.error (typeError t (typeof v))) := by
  cases v <;> cases t <;>
    simp [set_typed_variable, isinstance, typeof]

/-- C2 amended, witness: `set_typed_variable(1, bool)` rejects with the
typed error. -/
theorem C2_amended_isinstance_check_witness :
    set_typed_variable (PyVal.int 1) PyType.bool
      = Except.error (typeError PyType.bool PyType.int) :=
  (C2_amended_isinstance_check (PyVal.int 1) PyType.bool).2 (by decide)

/-- C3: for every (value, declared type) pair, `set_typed_variable`
either returns exactly the input value unchanged or fails with the
`NotificationError` carrying the declared and actual type names — it
never returns a coerced or different value. -/
theorem C3_check_returns_value_or_typed_error (v : PyVal) (t : PyType) :
    set_typed_variable v t = Except.ok v
    ∨ set_typed_variable v t = Except.error (typeError t (typeof v)) := by
  by_cases h : isinstance v t
  · exact Or.inl (by simp [set_typed_variable, h])
  · exact Or.inr (by simp [set_typed_variable, h])

/-- Counting occurrences of `a` in `n` copies of the two-element block
`[a, b]` gives `n` when `b ≠ a`. -/
theorem count_flatten_replicate_pair (n : Nat) (a b : Effect) (h : ¬ b = a) :
    (List.flatten (List.replicate n [a, b])).count a = n := by
  induction n with
  | zero => simp
  | succ k ih =>
    rw [List.replicate_succ, List.flatten_cons, List.count_append, ih]
    simp [List.count_cons, h, Nat.add_comm]

/-- C4: dispatched in Linux mode, `BeepNotification` runs the bell
command exactly `times` times, each invocation followed by the fixed
`0.5`-second sleep (so `times = 0` runs nothing), while Darwin mode
always runs the single `osascript` beep command that receives `times`
as a parameter — including `times = 0`. -/
theorem C4_beep_linux_repeats_darwin_param (times : Int) (h : 0 ≤ times) :
    BeepNotification.notify ⟨"Linux", PyVal.int times⟩ =
      Except.ok (List.flatten (List.replicate times.toNat
        [Effect.run ["xkbbell"], Effect.sleep (1/2)]))
    ∧ ((BeepNotification.linux_notify ⟨"Linux", PyVal.int times⟩).count
        (Effect.run ["xkbbell"]) : Int) = times
    ∧ BeepNotification.notify ⟨"Darwin", PyVal.int times⟩ =
      Except.ok [Effect.run ["osascript", "-e", "beep " ++ toString times]]
    := by
  refine ⟨rfl, ?_, rfl⟩
  show ((List.flatten (List.replicate (pyInt (PyVal.int times)).toNat
    [Effect.run ["xkbbell"], Effect.sleep (1/2)])).count (Effect.run ["xkbbell"]) : Int)
    = times
  rw [count_flatten_replicate_pair _ _ _ (by decide)]
  exact Int.toNat_of_nonneg h

/-- C4 witness at `times = 3`: three bell invocations with sleeps on
Linux, one parameterized beep on Darwin. -/
theorem C4_beep_witness :
    BeepNotification.notify ⟨"Linux", PyVal.int 3⟩ =
      Except.ok [Effect.run ["xkbbell"], Effect.sleep (1/2),
        Effect.run ["xkbbell"], Effect.sleep (1/2),
        Effect.run ["xkbbell"], Effect.sleep (1/2)]
    ∧ BeepNotification.notify ⟨"Darwin", PyVal.int 3⟩ =
      Except.ok [Effect.run ["osascript", "-e", "beep 3"]] := by
  have h := C4_beep_linux_repeats_darwin_param 3 (by decide)
  exact ⟨h.1, h.2.2⟩

/-- C5 counterexample: a desktop notification whose title has been set —
via the validating setter — to the empty string, with no subtitle, is a
state where exactly one of the two fields is set; dispatched in Linux
mode the command's title argument is `" "`, not the set title `""`:
`linux_notify` tests the fields with Python truthiness, so an
empty-string title is treated as absent. -/
theorem C5_counterexample_empty_title_treated_absent :
    CenterNotification.set_title
        ⟨PyVal.str "Hi", "Linux", PyVal.none, PyVal.none, PyVal.none, PyVal.none⟩
        (PyVal.str "")
      = Except.ok ⟨PyVal.str "Hi", "Linux", PyVal.str "", PyVal.none, PyVal.none, PyVal.none⟩
    ∧ CenterNotification.notify
        ⟨PyVal.str "Hi", "Linux", PyVal.str "", PyVal.none, PyVal.none, PyVal.none⟩
      = Except.ok [Effect.run ["notify-send", " ", "Hi"]]
    ∧ PyVal.str "" ≠ PyVal.none
    ∧ (" " : String) ≠ "" :=
  ⟨rfl, rfl, by decide, by decide⟩

/-- C5 amended: in Linux mode the title argument is the title and the
subtitle joined by a dash when both fields hold non-empty strings, the
non-empty one when exactly one does, and the single space `" "` when
neither does — where a field that is unset (`None`) *or set to the empty
string* counts as absent (the source tests the fields with Python
truthiness). -/
theorem C5_linux_title_composition (m t s : String) :
    (t ≠ "" → s ≠ "" →
      CenterNotification.notify
          ⟨PyVal.str m, "Linux", PyVal.str t, PyVal.str s, PyVal.none, PyVal.none⟩
        = Except.ok [Effect.run ["notify-send", t ++ " - " ++ s, m]])
    ∧ (t ≠ "" →
      CenterNotification.notify
          ⟨PyVal.str m, "Linux", PyVal.str t, PyVal.none, PyVal.none, PyVal.none⟩
        = Except.ok [Effect.run ["notify-send", t, m]])
    ∧ (s ≠ "" →
      CenterNotification.notify
          ⟨PyVal.str m, "Linux", PyVal.none, PyVal.str s, PyVal.none, PyVal.none⟩
        = Except.ok [Effect.run ["notify-send", s, m]])
    ∧ CenterNotification.notify
          ⟨PyVal.str m, "Linux", PyVal.none, PyVal.none, PyVal.none, PyVal.none⟩
        = Except.ok [Effect.run ["notify-send", " ", m]]
    ∧ CenterNotification.notify
          ⟨PyVal.str m, "Linux", PyVal.str "", PyVal.none, PyVal.none, PyVal.none⟩
        = Except.ok [Effect.run ["notify-send", " ", m]]
    ∧ (t ≠ "" →
      CenterNotification.notify
          ⟨PyVal.str m, "Linux", PyVal.str t, PyVal.str "", PyVal.none, PyVal.none⟩
        = Except.ok [Effect.run ["notify-send", t, m]]) := by
  refine ⟨fun ht hs => ?_, fun ht => ?_, fun hs => ?_, ?_, ?_, fun ht => ?_⟩ <;>
    simp [CenterNotification.notify, osDispatch, CenterNotification.linux_notify,
      CenterNotification.linuxTitle, truthy, pyStr, *]

/-- C5 amended, witness: only the title is set (to `"T"`), and the Linux
command's title argument is exactly `"T"`. -/
theorem C5_linux_title_witness :
    CenterNotification.notify
        ⟨PyVal.str "Hi", "Linux", PyVal.str "T", PyVal.none, PyVal.none, PyVal.none⟩
      = Except.ok [Effect.run ["notify-send", "T", "Hi"]] :=
  (C5_linux_title_composition "Hi" "T" "S").2.1 (by decide)

/-- Bind on an `Except` error propagates the error. -/
theorem except_bind_error {ε α β : Type} (e : ε) (f : α → Except ε β) :
    ((Except.error e : Except ε α) >>= f) = Except.error e := rfl

/-- Bind on an `Except` success applies the continuation. -/
theorem except_bind_ok {ε α β : Type} (a : α) (f : α → Except ε β) :
    ((Except.ok a : Except ε α) >>= f) = f a := rfl

/-- C6 counterexample: `BeepNotification(True)` — a required `times`
field whose runtime type is `bool`, not the declared `int` — constructs
successfully instead of failing with the typed error, because the
validator is Python `isinstance` and `bool` is a subclass of `int`. -/
theorem C6_counterexample_bool_times_accepted :
    BeepNotification.init "Linux" (PyVal.bool true)
      = Except.ok ⟨"Linux", PyVal.bool true⟩
    ∧ typeof (PyVal.bool true) ≠ PyType.int :=
  ⟨rfl, by decide⟩

/-- C6 amended: constructing a concrete backend with a required field
that fails the library's `isinstance` check against its declared type
(under which a `bool` counts as an `int`) fails immediately with the
typed `NotificationError`.  The embedded constructors only validate and
set attributes — they produce no effect trace — so the failure happens
before any network request or process invocation. -/
theorem C6_wrong_typed_required_field_fails_construction :
    (∀ m u : PyVal, isinstance m PyType.str = false →
      WebhookNotification.init m u
        = Except.error (typeError PyType.str (typeof m)))
    ∧ (∀ m u : PyVal, isinstance m PyType.str = true →
        isinstance u PyType.str = false →
      WebhookNotification.init m u
        = Except.error (typeError PyType.str (typeof u)))
    ∧ (∀ m t : PyVal, isinstance m PyType.str = true →
        isinstance t PyType.str = false →
      LineNotification.init m t
        = Except.error (typeError PyType.str (typeof t)))
    ∧ (∀ (sys : String) (v : PyVal), isinstance v PyType.int = false →
      BeepNotification.init sys v
        = Except.error (typeError PyType.int (typeof v)))
    ∧ (∀ (sys : String) (m t s i snd : PyVal), isinstance m PyType.str = false →
      CenterNotification.init sys m t s i snd
        = Except.error (typeError PyType.str (typeof m))) := by
  refine ⟨?_, ?_, ?_, ?_, ?_⟩
  · intro m u hm
    simp [WebhookNotification.init, MessageNotification.init,
      set_typed_variable, hm, except_bind_error, except_bind_ok]
  · intro m u hm hu
    simp [WebhookNotification.init, MessageNotification.init,
      set_typed_variable, hm, hu, except_bind_error, except_bind_ok]
  · intro m t hm ht
    simp [LineNotification.init, TokenNotification.init,
      MessageNotification.init, set_typed_variable, hm, ht,
      except_bind_error, except_bind_ok]
  · intro sys v hv
    simp [BeepNotification.init, set_typed_variable, hv]
  · intro sys m t s i snd hm
    simp [CenterNotification.init, MessageNotification.init,
      set_typed_variable, hm, except_bind_error, except_bind_ok]

/-- C6 amended, witness: constructing a beep backend whose `times` is
the string value "3" (a string where `int` is declared) fails with the
typed error. -/
theorem C6_wrong_typed_witness :
    BeepNotification.init "Linux" (PyVal.str "3")
      = Except.error (typeError PyType.int PyType.str) :=
  C6_wrong_typed_required_field_fails_construction.2.2.2.1
    "Linux" (PyVal.str "3") (by decide)

/-- C7: `SlackNotification(m, u).notify()` issues exactly one POST to `u`
whose body is the JSON object with the single key `text` mapped to `m`
and no explicit headers, while `DiscordNotification(m, u).notify()`
issues exactly one POST to `u` whose body has the single key `content`
mapped to `m` with an explicit `Content-Type: application/json` header;
construction stores both fields unchanged. -/
theorem C7_slack_discord_posts (m u : String) :
    WebhookNotification.init (PyVal.str m) (PyVal.str u)
      = Except.ok ⟨PyVal.str m, PyVal.str u⟩
    ∧ SlackNotification.notify ⟨PyVal.str m, PyVal.str u⟩
      = [Effect.post u [] [] (some ⟨[("text", PyVal.str m)]⟩)]
    ∧ DiscordNotification.notify ⟨PyVal.str m, PyVal.str u⟩
      = [Effect.post u [("Content-Type", "application/json")] []
          (some ⟨[("content", PyVal.str m)]⟩)] :=
  ⟨rfl, rfl, rfl⟩

/-- C8: for every message and token, `LineNotification` posts exactly
once to the fixed LINE Notify endpoint — a constant of the backend, not
derived from any caller-supplied field — with an
`Authorization: Bearer <token>` header and the message as a query
parameter. -/
theorem C8_line_fixed_endpoint_bearer (m t : String) :
    LineNotification.init (PyVal.str m) (PyVal.str t)
      = Except.ok ⟨PyVal.str m, PyVal.str t, LineNotification.lineEndpoint⟩
    ∧ LineNotification.lineEndpoint = "https://notify-api.line.me/api/notify"
    ∧ LineNotification.notify ⟨PyVal.str m, PyVal.str t, LineNotification.lineEndpoint⟩
      = [Effect.post "https://notify-api.line.me/api/notify"
          [("Authorization", "Bearer " ++ t)]
          [("message", m)] Option.none] :=
  ⟨rfl, rfl, rfl⟩

/-- A truthy Python value is not `None`. -/
theorem truthy_ne_none {v : PyVal} (h : truthy v = true) : v ≠ PyVal.none := by
  intro e
  subst e
  simp [truthy] at h

/-- `pynotify.CenterNotification.set_title` on a string value: stores the
title and auto-blanks a falsy subtitle to a single space. -/
theorem pn_set_title_str (st : PnCenterState) (s : String) :
    Pynotify.set_title st (PyVal.str s) = Except.ok { st with
      _title := PyVal.str s
      _subtitle := if truthy st._subtitle then st._subtitle else PyVal.str " " } := rfl

/-- `pynotify.CenterNotification.set_subtitle` on a string value: stores
the subtitle and auto-blanks a falsy title to a single space. -/
theorem pn_set_subtitle_str (st : PnCenterState) (s : String) :
    Pynotify.set_subtitle st (PyVal.str s) = Except.ok { st with
      _subtitle := PyVal.str s
      _title := if truthy st._title then st._title else PyVal.str " " } := rfl

/-- C9: in the pynotify variant of the desktop/center backend, after any
successful `set_title` the title is non-null and — when the subtitle was
unset — the subtitle has been auto-blanked to the single space `" "`;
symmetrically for `set_subtitle`.  After either successful set, both
fields are non-null. -/
theorem C9_pynotify_autoblank (st st2 : PnCenterState) (v : PyVal) :
    (Pynotify.set_title st v = Except.ok st2 →
      st2._title ≠ PyVal.none ∧ st2._subtitle ≠ PyVal.none
      ∧ (st._subtitle = PyVal.none → st2._subtitle = PyVal.str " "))
    ∧ (Pynotify.set_subtitle st v = Except.ok st2 →
      st2._title ≠ PyVal.none ∧ st2._subtitle ≠ PyVal.none
      ∧ (st._title = PyVal.none → st2._title = PyVal.str " ")) := by
  constructor
  · intro h
    cases v with
    | str s =>
      rw [pn_set_title_str] at h
      injection h with h2
      subst h2
      refine ⟨by simp, ?_, ?_⟩
      · by_cases htr : truthy st._subtitle = true
        · simpa [htr] using truthy_ne_none htr
        · simp [htr]
      · intro hsub
        simp [hsub, truthy]
    | int n =>
      simp [Pynotify.set_title, set_typed_variable, isinstance, except_bind_error] at h
    | bool b =>
      simp [Pynotify.set_title, set_typed_variable, isinstance, except_bind_error] at h
    | none =>
      simp [Pynotify.set_title, set_typed_variable, isinstance, except_bind_error] at h
  · intro h
    cases v with
    | str s =>
      rw [pn_set_subtitle_str] at h
      injection h with h2
      subst h2
      refine ⟨?_, by simp, ?_⟩
      · by_cases htr : truthy st._title = true
        · simpa [htr] using truthy_ne_none htr
        · simp [htr]
      · intro httl
        simp [httl, truthy]
    | int n =>
      simp [Pynotify.set_subtitle, set_typed_variable, isinstance, except_bind_error] at h
    | bool b =>
      simp [Pynotify.set_subtitle, set_typed_variable, isinstance, except_bind_error] at h
    | none =>
      simp [Pynotify.set_subtitle, set_typed_variable, isinstance, except_bind_error] at h

/-- C9 witness: setting the title to `"T"` on a fresh state with no
subtitle yields a non-null title and the auto-blanked subtitle `" "`. -/
theorem C9_pynotify_autoblank_witness :
    (⟨PyVal.str "m", PyVal.str "T", PyVal.str " ", PyVal.none⟩ : PnCenterState)._title
      ≠ PyVal.none
    ∧ (⟨PyVal.str "m", PyVal.str "T", PyVal.str " ", PyVal.none⟩ : PnCenterState)._subtitle
      ≠ PyVal.none
    ∧ (⟨PyVal.str "m", PyVal.str "T", PyVal.str " ", PyVal.none⟩ : PnCenterState)._subtitle
      = PyVal.str " " := by
  have h := (C9_pynotify_autoblank
      ⟨PyVal.str "m", PyVal.none, PyVal.none, PyVal.none⟩
      ⟨PyVal.str "m", PyVal.str "T", PyVal.str " ", PyVal.none⟩
      (PyVal.str "T")).1 (by rfl)
  exact ⟨h.1, h.2.1, h.2.2 rfl⟩

/-- An `if` whose branches both bind the same continuation commutes with
the bind (the shape produced by do-notation for a conditional action). -/
theorem if_bind_comm {ε α β : Type} (c : Prop) [Decidable c]
    (x y : Except ε α) (f : α → Except ε β) :
    (if c then x >>= f else y >>= f) = (if c then x else y) >>= f := by
  by_cases hc : c <;> simp [hc]

/-- Inverting a successful `Except` bind: the first action succeeded and
the continuation succeeded on its result. -/
theorem except_bind_ok_inv {ε α β : Type} {x : Except ε α} {f : α → Except ε β} {b : β}
    (h : (x >>= f) = Except.ok b) : ∃ a, x = Except.ok a ∧ f a = Except.ok b := by
  cases x with
  | error e => rw [except_bind_error] at h; cases h
  | ok a => exact ⟨a, rfl, h⟩

/-- A successful `MessageNotification.__init__` stores the message unchanged. -/
theorem msg_init_ok (m : PyVal) (mst : MessageState)
    (h : MessageNotification.init m = Except.ok mst) : mst = ⟨m⟩ := by
  cases hm : isinstance m PyType.str
  · simp [MessageNotification.init, set_typed_variable, hm, except_bind_error] at h
  · simp [MessageNotification.init, set_typed_variable, hm, except_bind_ok] at h
    exact h.symm

/-- A successful `CenterNotification.set_title` stores the value unchanged
and touches nothing else. -/
theorem center_set_title_ok (st st2 : CenterState) (v : PyVal)
    (h : CenterNotification.set_title st v = Except.ok st2) :
    st2 = { st with _title := v } := by
  cases hv : isinstance v PyType.str
  · simp [CenterNotification.set_title, set_typed_variable, hv, except_bind_error] at h
  · simp [CenterNotification.set_title, set_typed_variable, hv, except_bind_ok] at h
    exact h.symm

/-- A successful `CenterNotification.set_subtitle` stores the value
unchanged and touches nothing else. -/
theorem center_set_subtitle_ok (st st2 : CenterState) (v : PyVal)
    (h : CenterNotification.set_subtitle st v = Except.ok st2) :
    st2 = { st with _subtitle := v } := by
  cases hv : isinstance v PyType.str
  · simp [CenterNotification.set_subtitle, set_typed_variable, hv, except_bind_error] at h
  · simp [CenterNotification.set_subtitle, set_typed_variable, hv, except_bind_ok] at h
    exact h.symm

/-- A successful `CenterNotification.set_icon` stores the value unchanged
and touches nothing else. -/
theorem center_set_icon_ok (st st2 : CenterState) (v : PyVal)
    (h : CenterNotification.set_icon st v = Except.ok st2) :
    st2 = { st with _icon := v } := by
  cases hv : isinstance v PyType.str
  · simp [CenterNotification.set_icon, set_typed_variable, hv, except_bind_error] at h
  · simp [CenterNotification.set_icon, set_typed_variable, hv, except_bind_ok] at h
    exact h.symm

/-- A successful `CenterNotification.set_sound` stores the value unchanged
and touches nothing else. -/
theorem center_set_sound_ok (st st2 : CenterState) (v : PyVal)
    (h : CenterNotification.set_sound st v = Except.ok st2) :
    st2 = { st with _sound := v } := by
  cases hv : isinstance v PyType.bool
  · simp [CenterNotification.set_sound, set_typed_variable, hv, except_bind_error] at h
  · simp [CenterNotification.set_sound, set_typed_variable, hv, except_bind_ok] at h
    exact h.symm

/-- Field characterization of every successful
`CenterNotification.__init__` (pynotificator variant), for arbitrary —
in particular mixed truthy/falsy — arguments: each optional field holds
the argument when it was truthy and stays `None` when it was falsy,
independently of the other arguments. -/
theorem center_init_ok_fields (sys : String) (m t s i snd : PyVal) (st : CenterState)
    (h : CenterNotification.init sys m t s i snd = Except.ok st) :
    st = ⟨m, sys,
      if truthy t then t else PyVal.none,
      if truthy s then s else PyVal.none,
      if truthy i then i else PyVal.none,
      if truthy snd then snd else PyVal.none⟩ := by
  unfold CenterNotification.init at h
  obtain ⟨mst, hm, h⟩ := except_bind_ok_inv h
  obtain rfl := msg_init_ok m mst hm
  simp only [if_bind_comm] at h
  obtain ⟨st1, h1, h⟩ := except_bind_ok_inv h
  obtain ⟨st2, h2, h⟩ := except_bind_ok_inv h
  obtain ⟨st3, h3, h⟩ := except_bind_ok_inv h
  obtain ⟨st4, h4, h⟩ := except_bind_ok_inv h
  injection h with h5
  subst h5
  have r1 : st1 = ⟨m, sys, (if truthy t then t else PyVal.none),
      PyVal.none, PyVal.none, PyVal.none⟩ := by
    by_cases ht : truthy t = true
    · rw [if_pos ht] at h1
      rw [center_set_title_ok _ _ _ h1]
      simp [ht]
    · rw [if_neg ht] at h1
      injection h1 with h1e
      simp [← h1e, ht]
  subst r1
  have r2 : st2 = ⟨m, sys, (if truthy t then t else PyVal.none),
      (if truthy s then s else PyVal.none), PyVal.none, PyVal.none⟩ := by
    by_cases hs : truthy s = true
    · rw [if_pos hs] at h2
      rw [center_set_subtitle_ok _ _ _ h2]
      simp [hs]
    · rw [if_neg hs] at h2
      injection h2 with h2e
      simp [← h2e, hs]
  subst r2
  have r3 : st3 = ⟨m, sys, (if truthy t then t else PyVal.none),
      (if truthy s then s else PyVal.none), (if truthy i then i else PyVal.none),
      PyVal.none⟩ := by
    by_cases hi : truthy i = true
    · rw [if_pos hi] at h3
      rw [center_set_icon_ok _ _ _ h3]
      simp [hi]
    · rw [if_neg hi] at h3
      injection h3 with h3e
      simp [← h3e, hi]
  subst r3
  by_cases hsnd : truthy snd = true
  · rw [if_pos hsnd] at h4
    rw [center_set_sound_ok _ _ _ h4]
    simp [hsnd]
  · rw [if_neg hsnd] at h4
    injection h4 with h4e
    simp [← h4e, hsnd]

/-- `None` is falsy. -/
theorem truthy_none : truthy PyVal.none = false := rfl

/-- A successful `pynotify` `set_title` stores the value unchanged and
auto-blanks a falsy subtitle. -/
theorem pn_set_title_ok (st st2 : PnCenterState) (v : PyVal)
    (h : Pynotify.set_title st v = Except.ok st2) :
    st2 = { st with
      _title := v
      _subtitle := if truthy st._subtitle then st._subtitle else PyVal.str " " } := by
  cases hv : isinstance v PyType.str
  · simp [Pynotify.set_title, set_typed_variable, hv, except_bind_error] at h
  · simp [Pynotify.set_title, set_typed_variable, hv, except_bind_ok] at h
    exact h.symm

/-- A successful `pynotify` `set_subtitle` stores the value unchanged and
auto-blanks a falsy title. -/
theorem pn_set_subtitle_ok (st st2 : PnCenterState) (v : PyVal)
    (h : Pynotify.set_subtitle st v = Except.ok st2) :
    st2 = { st with
      _subtitle := v
      _title := if truthy st._title then st._title else PyVal.str " " } := by
  cases hv : isinstance v PyType.str
  · simp [Pynotify.set_subtitle, set_typed_variable, hv, except_bind_error] at h
  · simp [Pynotify.set_subtitle, set_typed_variable, hv, except_bind_ok] at h
    exact h.symm

/-- A successful `pynotify` `set_sound` stores the value unchanged and
touches nothing else. -/
theorem pn_set_sound_ok (st st2 : PnCenterState) (v : PyVal)
    (h : Pynotify.set_sound st v = Except.ok st2) :
    st2 = { st with _sound := v } := by
  cases hv : isinstance v PyType.bool
  · simp [Pynotify.set_sound, set_typed_variable, hv, except_bind_error] at h
  · simp [Pynotify.set_sound, set_typed_variable, hv, except_bind_ok] at h
    exact h.symm

/-- Field characterization of every successful
`pynotify.CenterNotification.__init__`, for arbitrary — in particular
mixed truthy/falsy — arguments: a falsy title/subtitle argument is
skipped, but when the other one is truthy its setter auto-blanks the
skipped field to a single space, so the skipped field stays `None` only
when both are falsy; a falsy sound always leaves `_sound` at `None`. -/
theorem pn_init_ok_fields (m t s snd : PyVal) (pst : PnCenterState)
    (h : Pynotify.init m t s snd = Except.ok pst) :
    pst = ⟨m,
      (if truthy t then t else if truthy s then PyVal.str " " else PyVal.none),
      (if truthy s then s else if truthy t then PyVal.str " " else PyVal.none),
      (if truthy snd then snd else PyVal.none)⟩ := by
  unfold Pynotify.init at h
  obtain ⟨mst, hm, h⟩ := except_bind_ok_inv h
  obtain rfl := msg_init_ok m mst hm
  simp only [if_bind_comm] at h
  obtain ⟨st1, h1, h⟩ := except_bind_ok_inv h
  obtain ⟨st2, h2, h⟩ := except_bind_ok_inv h
  obtain ⟨st3, h3, h⟩ := except_bind_ok_inv h
  injection h with h4
  subst h4
  have r1 : st1 = ⟨m, (if truthy t then t else PyVal.none),
      (if truthy t then PyVal.str " " else PyVal.none), PyVal.none⟩ := by
    by_cases ht : truthy t = true
    · rw [if_pos ht] at h1
      rw [pn_set_title_ok _ _ _ h1]
      simp [ht, truthy_none]
    · rw [if_neg ht] at h1
      injection h1 with h1e
      simp [← h1e, ht]
  subst r1
  have r2 : st2 = ⟨m,
      (if truthy t then t else if truthy s then PyVal.str " " else PyVal.none),
      (if truthy s then s else if truthy t then PyVal.str " " else PyVal.none),
      PyVal.none⟩ := by
    by_cases hs : truthy s = true
    · rw [if_pos hs] at h2
      rw [pn_set_subtitle_ok _ _ _ h2]
      by_cases ht : truthy t = true
      · simp [hs, ht]
      · simp [hs, ht, truthy_none]
    · rw [if_neg hs] at h2
      injection h2 with h2e
      simp [← h2e, hs]
  subst r2
  by_cases hsnd : truthy snd = true
  · rw [if_pos hsnd] at h3
    rw [pn_set_sound_ok _ _ _ h3]
    simp [hsnd]
  · rw [if_neg hsnd] at h3
    injection h3 with h3e
    simp [← h3e, hsnd]

/-- C10 counterexample: in the pynotify constructor cited by the claim,
a falsy title argument (`None`) is indeed skipped without validation,
but when the subtitle argument is truthy the subtitle setter auto-blanks
the skipped title field to the single space — so the corresponding field
does *not* remain unset (null). -/
theorem C10_counterexample_pynotify_blanks_skipped_title :
    Pynotify.init (PyVal.str "Hi") PyVal.none (PyVal.str "S") (PyVal.bool true)
      = Except.ok ⟨PyVal.str "Hi", PyVal.str " ", PyVal.str "S", PyVal.bool true⟩
    ∧ truthy PyVal.none = false
    ∧ PyVal.str " " ≠ PyVal.none :=
  ⟨rfl, rfl, by decide⟩

/-- C10 amended: in every construction of the desktop/center backend —
for arbitrary, in particular mixed truthy/falsy, arguments — an optional
argument whose value is falsy is silently skipped without any type
validation: the construction behaves exactly as if that argument were
absent, so a wrong-typed-but-falsy optional (such as `title=0`) never
raises, an empty-string title is treated as absent, and `sound=False`
leaves the sound field null.  In the pynotificator variant the
corresponding field always remains unset (`None`); in the pynotify
variant the sound field likewise remains `None` and a skipped
title/subtitle remains `None` only while the other one is also absent —
setting the other one auto-blanks the skipped field to a single space. -/
theorem C10_falsy_optionals_behave_as_absent (sys : String) (m t s i snd : PyVal)
    (st : CenterState) (pst : PnCenterState) :
    (CenterNotification.init sys m t s i snd = Except.ok st →
      st = ⟨m, sys,
        (if truthy t then t else PyVal.none),
        (if truthy s then s else PyVal.none),
        (if truthy i then i else PyVal.none),
        (if truthy snd then snd else PyVal.none)⟩)
    ∧ (truthy t = false →
        CenterNotification.init sys m t s i snd
          = CenterNotification.init sys m PyVal.none s i snd)
    ∧ (truthy s = false →
        CenterNotification.init sys m t s i snd
          = CenterNotification.init sys m t PyVal.none i snd)
    ∧ (truthy i = false →
        CenterNotification.init sys m t s i snd
          = CenterNotification.init sys m t s PyVal.none snd)
    ∧ (truthy snd = false →
        CenterNotification.init sys m t s i snd
          = CenterNotification.init sys m t s i PyVal.none)
    ∧ (Pynotify.init m t s snd = Except.ok pst →
      pst = ⟨m,
        (if truthy t then t else if truthy s then PyVal.str " " else PyVal.none),
        (if truthy s then s else if truthy t then PyVal.str " " else PyVal.none),
        (if truthy snd then snd else PyVal.none)⟩)
    ∧ (truthy t = false →
        Pynotify.init m t s snd = Pynotify.init m PyVal.none s snd)
    ∧ (truthy s = false →
        Pynotify.init m t s snd = Pynotify.init m t PyVal.none snd)
    ∧ (truthy snd = false →
        Pynotify.init m t s snd = Pynotify.init m t s PyVal.none) := by
  refine ⟨center_init_ok_fields sys m t s i snd st, ?_, ?_, ?_, ?_,
    pn_init_ok_fields m t s snd pst, ?_, ?_, ?_⟩
  · intro ht
    simp [CenterNotification.init, ht, truthy_none]
  · intro hs
    simp [CenterNotification.init, hs, truthy_none]
  · intro hi
    simp [CenterNotification.init, hi, truthy_none]
  · intro hsnd
    simp [CenterNotification.init, hsnd, truthy_none]
  · intro ht
    simp [Pynotify.init, ht, truthy_none]
  · intro hs
    simp [Pynotify.init, hs, truthy_none]
  · intro hsnd
    simp [Pynotify.init, hsnd, truthy_none]

/-- C10 amended, witness at a mixed construction: message given,
`title=0` (wrong-typed but falsy), truthy subtitle, no icon,
`sound=False`.  In the pynotificator variant the title, icon and sound
fields stay `None` and the construction equals the one with the title
absent; in the pynotify variant the truthy subtitle auto-blanks the
skipped title to the single space while the sound field stays `None`. -/
theorem C10_falsy_optionals_witness :
    ((⟨PyVal.str "Hi", "Linux", PyVal.none, PyVal.str "S", PyVal.none, PyVal.none⟩ : CenterState)
      = ⟨PyVal.str "Hi", "Linux",
          (if truthy (PyVal.int 0) then PyVal.int 0 else PyVal.none),
          (if truthy (PyVal.str "S") then PyVal.str "S" else PyVal.none),
          (if truthy PyVal.none then PyVal.none else PyVal.none),
          (if truthy (PyVal.bool false) then PyVal.bool false else PyVal.none)⟩)
    ∧ CenterNotification.init "Linux" (PyVal.str "Hi") (PyVal.int 0) (PyVal.str "S")
        PyVal.none (PyVal.bool false)
      = CenterNotification.init "Linux" (PyVal.str "Hi") PyVal.none (PyVal.str "S")
        PyVal.none (PyVal.bool false)
    ∧ ((⟨PyVal.str "Hi", PyVal.str " ", PyVal.str "S", PyVal.none⟩ : PnCenterState)
      = ⟨PyVal.str "Hi",
          (if truthy (PyVal.int 0) then PyVal.int 0
            else if truthy (PyVal.str "S") then PyVal.str " " else PyVal.none),
          (if truthy (PyVal.str "S") then PyVal.str "S"
            else if truthy (PyVal.int 0) then PyVal.str " " else PyVal.none),
          (if truthy (PyVal.bool false) then PyVal.bool false else PyVal.none)⟩) := by
  have h := C10_falsy_optionals_behave_as_absent "Linux" (PyVal.str "Hi") (PyVal.int 0)
      (PyVal.str "S") PyVal.none (PyVal.bool false)
      ⟨PyVal.str "Hi", "Linux", PyVal.none, PyVal.str "S", PyVal.none, PyVal.none⟩
      ⟨PyVal.str "Hi", PyVal.str " ", PyVal.str "S", PyVal.none⟩
  exact ⟨h.1 (by rfl), h.2.1 (by rfl), h.2.2.2.2.2.1 (by rfl)⟩
